import Mathlib

/-!
Shallow embedding of `runhouse/servers/cluster_servlet.py` (the `ClusterServlet`
control-plane actor). Python dicts are modelled as association lists with
unique keys, Python sets as duplicate-free lists, dynamically typed config
values as the inductive `Value`. External collaborators (the authorization
cache, the token-derivation function of the RNS client, the worker transport,
psutil samples, wall-clock time) are parameters of the embedded operations.
-/

namespace ClusterServlet

/-- A dynamically-typed Python value, as far as the cluster-servlet code
inspects values: `None`, integers, strings. -/
inductive Value where
  | vnone
  | vint (n : Int)
  | vstr (s : String)
  deriving DecidableEq, Repr

/-- Python `dict.get(k, None)`: first value stored under key `k`. -/
def lookupKV {V : Type} (k : String) : List (String × V) → Option V
  | [] => none
  | (a, v) :: rest => if a = k then some v else lookupKV k rest

/-- Python `dict[k] = v`: replace the value in place if the key is present,
append the entry otherwise. -/
def setKV {V : Type} (k : String) (v : V) : List (String × V) → List (String × V)
  | [] => [(k, v)]
  | (a, w) :: rest => if a = k then (k, v) :: rest else (a, w) :: setKV k v rest

/-- Python `dict.pop(k, None)` (discarding the popped value): drop the entry
stored under `k`, if any. -/
def eraseKV {V : Type} (k : String) : List (String × V) → List (String × V)
  | [] => []
  | (a, w) :: rest => if a = k then rest else (a, w) :: eraseKV k rest

/-- Python `dict.pop(k)` returning the popped value: `none` when the key is
absent (the `KeyError` case), otherwise the value and the remaining dict. -/
def popKV {V : Type} (k : String) : List (String × V) → Option (V × List (String × V))
  | [] => none
  | (a, v) :: rest =>
      if a = k then some (v, rest)
      else (popKV k rest).map (fun p => (p.1, (a, v) :: p.2))

/-- A Python dict never stores the same key twice. -/
def NodupKV {V : Type} (m : List (String × V)) : Prop :=
  (m.map Prod.fst).Nodup

instance {V : Type} (m : List (String × V)) : Decidable (NodupKV m) := by
  unfold NodupKV; infer_instance

/-- Python `set.add`: idempotent insertion (modelled at the back so that
iteration order matches first-insertion order). -/
def insertSet (w : String) (l : List String) : List String :=
  if w ∈ l then l else l ++ [w]

/-- The mutable fields of a `ClusterServlet` instance that the embedded
operations touch, together with the externally persisted skypilot
`autostop_last_active_time` entry that `aset_cluster_config_value` writes. -/
structure CSState where
  cluster_config : List (String × Value)
  initialized_env_servlet_names : List String
  key_to_env_servlet_name : List (String × String)
  last_activity : Option Int
  sky_last_active : Option Int
  deriving DecidableEq, Repr

/-- The state right after `ClusterServlet.__init__` on an `cluster_config`
argument: no env servlet initialized, no key mapped. -/
def initCS (cfg : List (String × Value)) : CSState :=
  { cluster_config := cfg
    initialized_env_servlet_names := []
    key_to_env_servlet_name := []
    last_activity := none
    sky_last_active := none }

/-- Modelled from the spec: `runhouse.constants.DEFAULT_STATUS_CHECK_INTERVAL`
(the source of that module is not part of this repository snapshot) — the
ordinary reporting cadence in seconds. -/
def DEFAULT_STATUS_CHECK_INTERVAL : Int := 60

/-- Modelled from the spec: `runhouse.constants.INCREASED_STATUS_CHECK_INTERVAL`
— the "larger fixed backoff value" the reporting loop escalates to. -/
def INCREASED_STATUS_CHECK_INTERVAL : Int := 240

/-- `aget_cluster_config`: returns the current config, no side effects. -/
def aget_cluster_config (s : CSState) : List (String × Value) :=
  s.cluster_config

/-- `aset_cluster_config_value(key, value)`: when `key == "autostop_mins"`
and `value > -1`, records `time.time()` (the `now` parameter) as
`self._last_activity` and pushes it into the skypilot config store; then sets
the single config entry. Comparing a non-integer value against `-1` raises a
`TypeError` in Python 3, hence the `Except` result. The fan-out propagation to
the initialized env servlets goes through the external worker transport and
changes no local state. -/
def aset_cluster_config_value (s : CSState) (key : String) (value : Value)
    (now : Int) : Except String CSState :=
  if key = "autostop_mins" then
    match value with
    | .vint n =>
        if n > -1 then
          Except.ok { s with
            cluster_config := setKV key value s.cluster_config
            last_activity := some now
            sky_last_active := some now }
        else
          Except.ok { s with cluster_config := setKV key value s.cluster_config }
    | _ => Except.error "TypeError: comparison of non-numeric value with int"
  else
    Except.ok { s with cluster_config := setKV key value s.cluster_config }

/-- `none`, read, and write: the `ResourceAccess` enum values the resolver
distinguishes (`DENIED` is any other lookup answer; the code only ever tests
for `WRITE` and `READ`). -/
inductive ResourceAccess where
  | write
  | read
  | denied
  deriving DecidableEq, Repr

/-- The external collaborators of the authorization resolver: the globally
configured owner token (`configs.token`, `None` when unset), the cluster-token
derivation `rns_client.cluster_token`, and the external authorization cache's
`lookup_access_level`. A resource URI is `Option String` because
`ahas_resource_access` passes `None` through. -/
structure AuthEnv where
  ownerToken : Option String
  clusterToken : String → Option String → String
  cacheLookup : String → Option String → Option ResourceAccess

/-- Python truthiness of `configs.token`: `None` and the empty string are
falsy. -/
def tokenTruthy : Option String → Bool
  | none => false
  | some s => !(s = "")

/-- `aresource_access_level(token, resource_uri)`: owner bypass — when
`configs.token` is truthy and the request token equals it or equals the
cluster-scoped token derived from it, return write without consulting the
cache; otherwise delegate to the cache lookup. -/
def aresource_access_level (env : AuthEnv) (token : String)
    (resource_uri : Option String) : Option ResourceAccess :=
  match env.ownerToken with
  | none => env.cacheLookup token resource_uri
  | some ot =>
      if ot = "" then env.cacheLookup token resource_uri
      else if ot = token ∨ env.clusterToken ot resource_uri = token then
        some ResourceAccess.write
      else env.cacheLookup token resource_uri

/-- `ahas_resource_access(token, resource_uri)`: no token means no access;
cluster-level write is a universal override; an absent resource URI with
cluster-level access below read is denied; otherwise the level computed for
`resource_uri` itself (which may be `None` here) must be read or write.
Reading `self.cluster_config["name"]` raises a `KeyError` when the key is
absent, and the embedded cluster URI must be a string to match the resolver's
types. -/
def ahas_resource_access (env : AuthEnv) (s : CSState) (token : Option String)
    (resource_uri : Option String) : Except String Bool :=
  match token with
  | none => Except.ok false
  | some t =>
      match lookupKV "name" s.cluster_config with
      | some (.vstr cluster_uri) =>
          let cluster_access := aresource_access_level env t (some cluster_uri)
          if cluster_access = some ResourceAccess.write then
            Except.ok true
          else if resource_uri = none ∧
              cluster_access ≠ some ResourceAccess.write ∧
              cluster_access ≠ some ResourceAccess.read then
            Except.ok false
          else
            let resource_access_level := aresource_access_level env t resource_uri
            Except.ok (resource_access_level = some ResourceAccess.write ∨
              resource_access_level = some ResourceAccess.read)
      | some _ => Except.error "cluster name is not a string"
      | none => Except.error "KeyError: name"

/-- `amark_env_servlet_name_as_initialized`: `set.add`, idempotent. -/
def amark_env_servlet_name_as_initialized (s : CSState)
    (env_servlet_name : String) : CSState :=
  { s with initialized_env_servlet_names :=
      insertSet env_servlet_name s.initialized_env_servlet_names }

/-- `ais_env_servlet_name_initialized`: membership in the initialized set. -/
def ais_env_servlet_name_initialized (s : CSState)
    (env_servlet_name : String) : Bool :=
  env_servlet_name ∈ s.initialized_env_servlet_names

/-- `aget_env_servlet_name_for_key`: a directory lookup counts as cluster
activity (`self._last_activity = time.time()`), then `dict.get(key, None)`. -/
def aget_env_servlet_name_for_key (s : CSState) (key : String) (now : Int) :
    Option String × CSState :=
  (lookupKV key s.key_to_env_servlet_name, { s with last_activity := some now })

/-- `aput_env_servlet_name_for_key`: raises `ValueError` when the env servlet
is not initialized, otherwise inserts/overwrites the mapping. -/
def aput_env_servlet_name_for_key (s : CSState) (key : String)
    (env_servlet_name : String) : Except String CSState :=
  if ais_env_servlet_name_initialized s env_servlet_name then
    Except.ok
      { s with key_to_env_servlet_name :=
          setKV key env_servlet_name s.key_to_env_servlet_name }
  else
    Except.error "ValueError: env servlet name not initialized"

/-- `apop_env_servlet_name_for_key(key, *args)`: `dict.pop(key, *args)`. The
`default` argument models `*args`: `none` when no default was passed, and
`some d` when the single default `d` (itself possibly `None`) was passed.
Popping an unmapped key with no default raises `KeyError`. -/
def apop_env_servlet_name_for_key (s : CSState) (key : String)
    (default : Option (Option String)) :
    Except String (Option String × CSState) :=
  match popKV key s.key_to_env_servlet_name with
  | some (v, rest) =>
      Except.ok (some v, { s with key_to_env_servlet_name := rest })
  | none =>
      match default with
      | some d => Except.ok (d, s)
      | none => Except.error "KeyError"

/-- `aclear_key_to_env_servlet_name_dict`: administrative reset of the
key-to-servlet mapping. -/
def aclear_key_to_env_servlet_name_dict (s : CSState) : CSState :=
  { s with key_to_env_servlet_name := [] }

/-- `aclear_all_references_to_env_servlet_name`: `set.remove` (raising
`KeyError` when the name was never initialized), then collect every key
mapped to the name and pop each, returning the collected keys. -/
def aclear_all_references_to_env_servlet_name (s : CSState)
    (env_servlet_name : String) : Except String (List String × CSState) :=
  if env_servlet_name ∈ s.initialized_env_servlet_names then
    let deleted_keys :=
      (s.key_to_env_servlet_name.filter
        (fun p => p.2 = env_servlet_name)).map Prod.fst
    Except.ok (deleted_keys,
      { s with
        initialized_env_servlet_names :=
          s.initialized_env_servlet_names.erase env_servlet_name
        key_to_env_servlet_name :=
          deleted_keys.foldl (fun m k => eraseKV k m)
            s.key_to_env_servlet_name })
  else
    Except.error "KeyError: env servlet name not initialized"

/-- Outcome of the external `obj_store.acall_actor_method(..., "status_local")`
call for one env servlet: the `(objects_in_env_modified, env_utilization_data)`
pair, or the distinguishable worker-unreachable failure (`ObjStoreError`). -/
inductive PollOutcome where
  | ok (objects : List Value) (utilization : List (String × Value))
  | objStoreError (msg : String)
  deriving DecidableEq, Repr

/-- The dict `_cluster_status_helper` returns: always carries
`env_servlet_name`; `result = none` models the variant carrying the
`"Exception"` key. -/
structure EnvStatusEntry where
  env_servlet_name : String
  result : Option (List Value × List (String × Value))
  deriving DecidableEq, Repr

/-- `_cluster_status_helper(env_servlet_name)`: call `status_local` on the
servlet; an `ObjStoreError` is caught and replaced by the exception-carrying
dict. -/
def cluster_status_helper (poll : String → PollOutcome)
    (env_servlet_name : String) : EnvStatusEntry :=
  match poll env_servlet_name with
  | .ok objects utilization => ⟨env_servlet_name, some (objects, utilization)⟩
  | .objStoreError _ => ⟨env_servlet_name, none⟩

/-- The node-level samples `astatus` takes once per snapshot (psutil CPU,
memory and disk readings, `get_pid()`, `runhouse.__version__`). -/
structure SysMetrics where
  cpu : Value
  memory : List (String × Value)
  disk : List (String × Value)
  pid : Int
  version : String

/-- The `ResourceStatusData` pydantic model. -/
structure ResourceStatusData where
  cluster_config : List (String × Value)
  env_resource_mapping : List (String × List Value)
  system_cpu_usage : Value
  system_memory_usage : List (String × Value)
  system_disk_usage : List (String × Value)
  env_servlet_processes : List (String × List (String × Value))
  server_pid : Int
  runhouse_version : String
  deriving DecidableEq, Repr

/-- `astatus()`: deep-copy the cluster config and pop `"creds"` from the
copy; poll every initialized env servlet, a failing servlet contributing an
empty object list and empty utilization dict; sample node metrics; assemble
the snapshot. The instance state it returns alongside is unchanged — every
mutation happened on the deep copy. -/
def astatus (s : CSState) (poll : String → PollOutcome) (sys : SysMetrics) :
    ResourceStatusData × CSState :=
  let config_cluster := eraseKV "creds" s.cluster_config
  let env_servlets_status :=
    s.initialized_env_servlet_names.map (cluster_status_helper poll)
  let cluster_servlets := env_servlets_status.map (fun e =>
    (e.env_servlet_name,
      match e.result with
      | some r => r.1
      | none => ([] : List Value)))
  let cluster_envs_env_utilization_data := env_servlets_status.map (fun e =>
    (e.env_servlet_name,
      match e.result with
      | some r => r.2
      | none => ([] : List (String × Value))))
  ({ cluster_config := config_cluster
     env_resource_mapping := cluster_servlets
     system_cpu_usage := sys.cpu
     system_memory_usage := sys.memory
     system_disk_usage := sys.disk
     env_servlet_processes := cluster_envs_env_utilization_data
     server_pid := sys.pid
     runhouse_version := sys.version }, s)

/-- What happened inside the `try` body of one `asend_status_info_to_den`
cycle, once past the interval read: the POST went through and returned a
status code, or some exception (network failure, serialization failure, …)
was raised. -/
inductive CycleOutcome where
  | bodyOk (statusCode : Int)
  | bodyRaises
  deriving DecidableEq, Repr

/-- How one reporting cycle ends: the loop breaks out (the disabled
sentinel), an unhandled exception escapes the iteration and kills the loop,
or the loop proceeds to the next cycle with the given state after the given
sequence of sleeps (in seconds). -/
inductive StepResult where
  | stop
  | crash
  | next (s : CSState) (sleeps : List Int)
  deriving DecidableEq, Repr

/-- One iteration of the `while True` loop of `asend_status_info_to_den`:
read `den_status_ping_interval` from the config; `-1` breaks out of the loop;
a non-200 response is only logged; any exception from the body is caught and
answered by setting `den_status_ping_interval` to
`INCREASED_STATUS_CHECK_INTERVAL` and sleeping that backoff; the `finally`
block sleeps the interval read at the top of the iteration in every case.
Sleeping a non-integer interval (the config key absent or non-numeric) raises
in `asyncio.sleep` and escapes the iteration. -/
def asend_status_cycle (s : CSState) (outcome : CycleOutcome) (now : Int) :
    StepResult :=
  let interval_size := (lookupKV "den_status_ping_interval" s.cluster_config).getD .vnone
  if interval_size = .vint (-1) then StepResult.stop
  else
    match outcome with
    | .bodyOk _ =>
        match interval_size with
        | .vint n => StepResult.next s [n]
        | _ => StepResult.crash
    | .bodyRaises =>
        match aset_cluster_config_value s "den_status_ping_interval"
            (.vint INCREASED_STATUS_CHECK_INTERVAL) now with
        | .ok s' =>
            match interval_size with
            | .vint n =>
                StepResult.next s' [INCREASED_STATUS_CHECK_INTERVAL, n]
            | _ => StepResult.crash
        | .error _ => StepResult.crash

/-- The directory operations of §4.2 that mutate the servlet directory. The
`unregisterKey` default argument mirrors `*args` as in
`apop_env_servlet_name_for_key`. -/
inductive DirOp where
  | markInitialized (w : String)
  | registerKey (k : String) (w : String)
  | unregisterKey (k : String) (default : Option (Option String))
  | clearAllKeys
  | retireWorker (w : String)
  deriving DecidableEq, Repr

/-- Run one directory operation; an `error` is the operation raising. -/
def applyDirOp (s : CSState) : DirOp → Except String CSState
  | .markInitialized w => Except.ok (amark_env_servlet_name_as_initialized s w)
  | .registerKey k w => aput_env_servlet_name_for_key s k w
  | .unregisterKey k d => (apop_env_servlet_name_for_key s k d).map Prod.snd
  | .clearAllKeys => Except.ok (aclear_key_to_env_servlet_name_dict s)
  | .retireWorker w =>
      (aclear_all_references_to_env_servlet_name s w).map Prod.snd

/-- A raising operation leaves the state as it was (each operation validates
before it mutates, so the exception propagates to the caller with the
servlet state untouched). -/
def runDirOp (s : CSState) (op : DirOp) : CSState :=
  match applyDirOp s op with
  | .ok s' => s'
  | .error _ => s

/-- Run a sequence of directory operations. -/
def runDirOps (s : CSState) (ops : List DirOp) : CSState :=
  ops.foldl runDirOp s

section AssocLemmas

variable {V : Type}

theorem NodupKV_nil : NodupKV ([] : List (String × V)) := by
  simp [NodupKV]

theorem NodupKV_cons {a : String} {w : V} {m : List (String × V)} :
    NodupKV ((a, w) :: m) ↔ a ∉ m.map Prod.fst ∧ NodupKV m := by
  simp [NodupKV]

theorem lookupKV_setKV (k k' : String) (v : V) (m : List (String × V)) :
    lookupKV k' (setKV k v m) = if k' = k then some v else lookupKV k' m := by
  induction m with
  | nil =>
      by_cases h : k' = k
      · simp [setKV, lookupKV, h]
      · simp [setKV, lookupKV, h, Ne.symm h]
  | cons p rest ih =>
      obtain ⟨a, w⟩ := p
      by_cases hak : a = k
      · subst hak
        by_cases h : k' = a
        · simp [setKV, lookupKV, h]
        · simp [setKV, lookupKV, h, Ne.symm h]
      · by_cases h : a = k'
        · subst h
          simp [setKV, lookupKV, hak]
        · simp [setKV, lookupKV, hak, h, ih]

theorem lookupKV_eq_none_of_not_mem_keys {k : String} {m : List (String × V)}
    (h : k ∉ m.map Prod.fst) : lookupKV k m = none := by
  induction m with
  | nil => rfl
  | cons p rest ih =>
      obtain ⟨a, w⟩ := p
      simp only [List.map_cons, List.mem_cons, not_or] at h
      simp [lookupKV, Ne.symm h.1, ih h.2]

theorem mem_of_lookupKV_eq_some {k : String} {v : V} {m : List (String × V)}
    (h : lookupKV k m = some v) : (k, v) ∈ m := by
  induction m with
  | nil => simp [lookupKV] at h
  | cons p rest ih =>
      obtain ⟨a, w⟩ := p
      by_cases hak : a = k
      · subst hak
        rw [lookupKV, if_pos rfl] at h
        injection h with h
        subst h
        exact List.mem_cons_self _ _
      · rw [lookupKV, if_neg hak] at h
        exact List.mem_cons_of_mem _ (ih h)

theorem lookupKV_eq_some_of_mem {k : String} {v : V} {m : List (String × V)}
    (hn : NodupKV m) (h : (k, v) ∈ m) : lookupKV k m = some v := by
  induction m with
  | nil => simp at h
  | cons p rest ih =>
      obtain ⟨a, w⟩ := p
      obtain ⟨h1, h2⟩ := NodupKV_cons.mp hn
      rcases List.mem_cons.mp h with heq | hmem
      · rw [Prod.mk.injEq] at heq
        simp [lookupKV, heq.1.symm, heq.2]
      · by_cases hak : a = k
        · subst hak
          exact absurd (List.mem_map_of_mem Prod.fst hmem) h1
        · simpa [lookupKV, hak] using ih h2 hmem

theorem eraseKV_sublist (k : String) (m : List (String × V)) :
    List.Sublist (eraseKV k m) m := by
  induction m with
  | nil => simp [eraseKV]
  | cons p rest ih =>
      obtain ⟨a, w⟩ := p
      by_cases h : a = k
      · simp only [eraseKV, if_pos h]
        exact List.sublist_cons_self (a, w) rest
      · simpa [eraseKV, h] using ih.cons₂ (a, w)

theorem NodupKV_eraseKV (k : String) {m : List (String × V)} (h : NodupKV m) :
    NodupKV (eraseKV k m) :=
  h.sublist ((eraseKV_sublist k m).map Prod.fst)

theorem lookupKV_eraseKV (k k' : String) {m : List (String × V)}
    (h : NodupKV m) :
    lookupKV k' (eraseKV k m) = if k' = k then none else lookupKV k' m := by
  induction m with
  | nil => by_cases hk : k' = k <;> simp [eraseKV, lookupKV, hk]
  | cons p rest ih =>
      obtain ⟨a, w⟩ := p
      obtain ⟨h1, h2⟩ := NodupKV_cons.mp h
      by_cases hak : a = k
      · subst hak
        by_cases hk : k' = a
        · subst hk
          simp [eraseKV, lookupKV_eq_none_of_not_mem_keys h1]
        · simp [eraseKV, lookupKV, hk, Ne.symm hk]
      · by_cases hak' : a = k'
        · subst hak'
          simp [eraseKV, lookupKV, hak]
        · simp [eraseKV, lookupKV, hak, hak', ih h2]

theorem popKV_eq_lookupKV_eraseKV (k : String) (m : List (String × V)) :
    popKV k m = (lookupKV k m).map (fun v => (v, eraseKV k m)) := by
  induction m with
  | nil => rfl
  | cons p rest ih =>
      obtain ⟨a, w⟩ := p
      by_cases h : a = k
      · simp [popKV, lookupKV, eraseKV, h]
      · simp only [popKV, lookupKV, eraseKV, if_neg h, ih, Option.map_map]
        cases lookupKV k rest <;> rfl

theorem mem_keys_setKV (b k : String) (v : V) (m : List (String × V)) :
    b ∈ (setKV k v m).map Prod.fst ↔ b = k ∨ b ∈ m.map Prod.fst := by
  induction m with
  | nil => simp [setKV]
  | cons p rest ih =>
      obtain ⟨a, w⟩ := p
      by_cases h : a = k
      · subst h
        simp [setKV]
      · simp only [setKV, if_neg h, List.map_cons, List.mem_cons, ih]
        tauto

theorem NodupKV_setKV (k : String) (v : V) {m : List (String × V)}
    (h : NodupKV m) : NodupKV (setKV k v m) := by
  induction m with
  | nil => simp [setKV, NodupKV]
  | cons p rest ih =>
      obtain ⟨a, w⟩ := p
      obtain ⟨h1, h2⟩ := NodupKV_cons.mp h
      by_cases hak : a = k
      · subst hak
        simp only [setKV, if_pos rfl]
        exact NodupKV_cons.mpr ⟨h1, h2⟩
      · simp only [setKV, if_neg hak]
        refine NodupKV_cons.mpr ⟨?_, ih h2⟩
        intro hmem
        rcases (mem_keys_setKV a k v rest).mp hmem with rfl | hm
        · exact hak rfl
        · exact h1 hm

theorem NodupKV_foldl_eraseKV (ks : List String) {m : List (String × V)}
    (h : NodupKV m) :
    NodupKV (ks.foldl (fun acc kk => eraseKV kk acc) m) := by
  induction ks generalizing m with
  | nil => exact h
  | cons kk ks ih => exact ih (NodupKV_eraseKV kk h)

theorem lookupKV_foldl_eraseKV (ks : List String) (k' : String)
    {m : List (String × V)} (h : NodupKV m) :
    lookupKV k' (ks.foldl (fun acc kk => eraseKV kk acc) m) =
      if k' ∈ ks then none else lookupKV k' m := by
  induction ks generalizing m with
  | nil => simp
  | cons kk ks ih =>
      simp only [List.foldl_cons, List.mem_cons]
      rw [ih (NodupKV_eraseKV kk h), lookupKV_eraseKV kk k' h]
      by_cases h1 : k' ∈ ks <;> by_cases h2 : k' = kk <;> simp [h1, h2]

theorem mem_deleted_keys_iff (w k : String) {m : List (String × String)}
    (h : NodupKV m) :
    k ∈ (m.filter (fun p => p.2 = w)).map Prod.fst ↔
      lookupKV k m = some w := by
  constructor
  · intro hk
    obtain ⟨p, hp, hfst⟩ := List.mem_map.mp hk
    obtain ⟨hpm, hpw⟩ := List.mem_filter.mp hp
    obtain ⟨a, b⟩ := p
    simp only at hfst
    subst hfst
    simp only [decide_eq_true_eq] at hpw
    subst hpw
    exact lookupKV_eq_some_of_mem h hpm
  · intro hl
    exact List.mem_map.mpr
      ⟨(k, w), List.mem_filter.mpr ⟨mem_of_lookupKV_eq_some hl, by simp⟩, rfl⟩

end AssocLemmas

theorem mem_insertSet (a w : String) (l : List String) :
    a ∈ insertSet w l ↔ a = w ∨ a ∈ l := by
  unfold insertSet
  by_cases h : w ∈ l
  · simp only [if_pos h]
    constructor
    · exact Or.inr
    · rintro (rfl | hm)
      · exact h
      · exact hm
  · simp [if_neg h, or_comm]

theorem nodup_insertSet (w : String) {l : List String} (h : l.Nodup) :
    (insertSet w l).Nodup := by
  unfold insertSet
  by_cases hw : w ∈ l
  · simpa [hw] using h
  · simp [hw, List.nodup_append, h]

/-- C1: for every resource URI and every authorization-cache state,
`aresource_access_level(credential, resourceURI)` returns write when the
credential equals the node's owner credential (present, i.e. truthy) or the
cluster-scoped token derived from it, without consulting the authorization
cache (the cache lookup function is universally quantified and the result
does not depend on it). -/
theorem c1_owner_bypass_always_write
    (ct : String → Option String → String)
    (cache : String → Option String → Option ResourceAccess)
    (ot token : String) (uri : Option String) (hot : ot ≠ "")
    (h : token = ot ∨ token = ct ot uri) :
    aresource_access_level ⟨some ot, ct, cache⟩ token uri =
      some ResourceAccess.write := by
  have hcond : ot = token ∨ ct ot uri = token := by
    rcases h with h | h
    · exact Or.inl h.symm
    · exact Or.inr h.symm
  simp [aresource_access_level, hot, hcond]

/-- C1 witness: the owner credential `"OWNER"` gets write on `"org/res1"`
even though the authorization cache is entirely empty. -/
theorem c1_owner_bypass_always_write_witness :
    aresource_access_level
      ⟨some "OWNER", fun o _ => o ++ "::cluster", fun _ _ => none⟩
      "OWNER" (some "org/res1") = some ResourceAccess.write :=
  c1_owner_bypass_always_write (fun o _ => o ++ "::cluster") (fun _ _ => none)
    "OWNER" "OWNER" (some "org/res1") (by decide) (Or.inl rfl)

/-- An authorization environment refuting C2: the cache grants `"alice"`
read on the cluster URI `"cluster1"` and nothing else; `"OWNER"` is the
owner credential. -/
def envC2 : AuthEnv :=
  { ownerToken := some "OWNER"
    clusterToken := fun ot u =>
      ot ++ "::" ++ (match u with | some x => x | none => "None")
    cacheLookup := fun t u =>
      if t = "alice" ∧ u = some "cluster1" then some ResourceAccess.read
      else none }

/-- A servlet state whose cluster URI is `"cluster1"`. -/
def stateC2 : CSState := initCS [("name", Value.vstr "cluster1")]

/-- C2 counterexample: `"alice"` has cluster-level read access, no specific
resource URI is named, and yet `ahas_resource_access` returns false — the
code falls through to a cache lookup keyed by the absent URI instead of
accepting cluster-level read. -/
theorem c2_counterexample :
    aresource_access_level envC2 "alice" (some "cluster1") =
      some ResourceAccess.read ∧
    ahas_resource_access envC2 stateC2 (some "alice") none =
      Except.ok false := by
  constructor <;> rfl

/-- C2 amended: for a non-owner credential whose cluster-level access is
read and no specific resource URI named, `ahas_resource_access` returns true
iff the access level the resolver computes for the absent URI (a cache
lookup keyed by `None`, unless the owner bypass matches the token derived
for `None`) is read or write — cluster-level read alone is not sufficient. -/
theorem c2_read_without_uri_consults_cache (env : AuthEnv) (s : CSState)
    (t cn : String)
    (hname : lookupKV "name" s.cluster_config = some (Value.vstr cn))
    (hread : aresource_access_level env t (some cn) = some ResourceAccess.read) :
    ahas_resource_access env s (some t) none = Except.ok true ↔
      (aresource_access_level env t none = some ResourceAccess.write ∨
       aresource_access_level env t none = some ResourceAccess.read) := by
  unfold ahas_resource_access
  rw [hname]
  simp only [hread]
  simp

/-- An authorization environment satisfying the amended C2's hypotheses with
a cache that also answers read for the absent URI. -/
def envC2w : AuthEnv :=
  { ownerToken := some "OWNER"
    clusterToken := fun ot u =>
      ot ++ "::" ++ (match u with | some x => x | none => "None")
    cacheLookup := fun t _ =>
      if t = "alice" then some ResourceAccess.read else none }

/-- C2 amended witness: with the cache granting `"alice"` read on every URI
key including the absent one, the nameless-resource check succeeds. -/
theorem c2_read_without_uri_consults_cache_witness :
    ahas_resource_access envC2w stateC2 (some "alice") none =
      Except.ok true :=
  (c2_read_without_uri_consults_cache envC2w stateC2 "alice" "cluster1"
    (by decide) (by decide)).mpr (Or.inr (by decide))

/-- The directory invariant: the initialized set and the key map are
genuinely set/dict shaped, and every mapped key's owner is initialized. -/
def DirectoryInv (s : CSState) : Prop :=
  s.initialized_env_servlet_names.Nodup ∧
  NodupKV s.key_to_env_servlet_name ∧
  ∀ k w, lookupKV k s.key_to_env_servlet_name = some w →
    w ∈ s.initialized_env_servlet_names

theorem DirectoryInv_runDirOp (s : CSState) (op : DirOp)
    (h : DirectoryInv s) : DirectoryInv (runDirOp s op) := by
  obtain ⟨hI, hK, hOwn⟩ := h
  cases op with
  | markInitialized w =>
      have hstep : runDirOp s (DirOp.markInitialized w) =
          { s with initialized_env_servlet_names :=
              insertSet w s.initialized_env_servlet_names } := by
        simp [runDirOp, applyDirOp, amark_env_servlet_name_as_initialized]
      rw [hstep]
      refine ⟨nodup_insertSet w hI, hK, ?_⟩
      intro k w' hl
      exact (mem_insertSet w' w _).mpr (Or.inr (hOwn k w' hl))
  | registerKey k w =>
      by_cases hw : w ∈ s.initialized_env_servlet_names
      · have hstep : runDirOp s (DirOp.registerKey k w) =
            { s with key_to_env_servlet_name :=
                setKV k w s.key_to_env_servlet_name } := by
          simp [runDirOp, applyDirOp, aput_env_servlet_name_for_key,
            ais_env_servlet_name_initialized, hw]
        rw [hstep]
        refine ⟨hI, NodupKV_setKV k w hK, ?_⟩
        intro k' w' hl
        rw [lookupKV_setKV] at hl
        by_cases hk : k' = k
        · rw [if_pos hk] at hl
          cases hl
          exact hw
        · rw [if_neg hk] at hl
          exact hOwn k' w' hl
      · have hstep : runDirOp s (DirOp.registerKey k w) = s := by
          simp [runDirOp, applyDirOp, aput_env_servlet_name_for_key,
            ais_env_servlet_name_initialized, hw]
        rw [hstep]
        exact ⟨hI, hK, hOwn⟩
  | unregisterKey k d =>
      rcases hlook : lookupKV k s.key_to_env_servlet_name with _ | v
      · have hstep : runDirOp s (DirOp.unregisterKey k d) = s := by
          cases d <;>
            simp [runDirOp, applyDirOp, apop_env_servlet_name_for_key,
              popKV_eq_lookupKV_eraseKV, hlook, Except.map]
        rw [hstep]
        exact ⟨hI, hK, hOwn⟩
      · have hstep : runDirOp s (DirOp.unregisterKey k d) =
            { s with key_to_env_servlet_name :=
                eraseKV k s.key_to_env_servlet_name } := by
          simp [runDirOp, applyDirOp, apop_env_servlet_name_for_key,
            popKV_eq_lookupKV_eraseKV, hlook, Except.map]
        rw [hstep]
        refine ⟨hI, NodupKV_eraseKV k hK, ?_⟩
        intro k' w' hl
        rw [lookupKV_eraseKV k k' hK] at hl
        by_cases hk : k' = k
        · rw [if_pos hk] at hl
          cases hl
        · rw [if_neg hk] at hl
          exact hOwn k' w' hl
  | clearAllKeys =>
      have hstep : runDirOp s DirOp.clearAllKeys =
          { s with key_to_env_servlet_name := [] } := by
        simp [runDirOp, applyDirOp, aclear_key_to_env_servlet_name_dict]
      rw [hstep]
      refine ⟨hI, NodupKV_nil, ?_⟩
      intro k w hl
      simp [lookupKV] at hl
  | retireWorker w =>
      by_cases hw : w ∈ s.initialized_env_servlet_names
      · have hstep : runDirOp s (DirOp.retireWorker w) =
            { s with
              initialized_env_servlet_names :=
                s.initialized_env_servlet_names.erase w
              key_to_env_servlet_name :=
                ((s.key_to_env_servlet_name.filter
                  (fun p => p.2 = w)).map Prod.fst).foldl
                  (fun m k => eraseKV k m) s.key_to_env_servlet_name } := by
          simp [runDirOp, applyDirOp,
            aclear_all_references_to_env_servlet_name, hw, Except.map]
        rw [hstep]
        refine ⟨hI.erase w, NodupKV_foldl_eraseKV _ hK, ?_⟩
        intro k' w' hl
        rw [lookupKV_foldl_eraseKV _ k' hK] at hl
        by_cases hk :
            k' ∈ (s.key_to_env_servlet_name.filter
              (fun p => p.2 = w)).map Prod.fst
        · rw [if_pos hk] at hl
          cases hl
        · rw [if_neg hk] at hl
          have hmem := hOwn k' w' hl
          rw [hI.mem_erase_iff]
          refine ⟨?_, hmem⟩
          rintro rfl
          exact hk ((mem_deleted_keys_iff w' k' hK).mpr hl)
      · have hstep : runDirOp s (DirOp.retireWorker w) = s := by
          simp [runDirOp, applyDirOp,
            aclear_all_references_to_env_servlet_name, hw, Except.map]
        rw [hstep]
        exact ⟨hI, hK, hOwn⟩

theorem DirectoryInv_runDirOps (s : CSState) (ops : List DirOp)
    (h : DirectoryInv s) : DirectoryInv (runDirOps s ops) := by
  induction ops generalizing s with
  | nil => exact h
  | cons op ops ih => exact ih _ (DirectoryInv_runDirOp s op h)

theorem DirectoryInv_initCS (cfg : List (String × Value)) :
    DirectoryInv (initCS cfg) := by
  refine ⟨List.nodup_nil, NodupKV_nil, ?_⟩
  intro k w hl
  simp [initCS, lookupKV] at hl

/-- C3: in every state reachable from startup by any sequence of directory
operations, every key in the key-to-worker mapping refers to a worker
currently in the initialized set: if the lookup of `k` yields `w` then `w`
is initialized. -/
theorem c3_mapped_keys_have_initialized_owner (cfg : List (String × Value))
    (ops : List DirOp) (k w : String)
    (h : lookupKV k
      (runDirOps (initCS cfg) ops).key_to_env_servlet_name = some w) :
    ais_env_servlet_name_initialized (runDirOps (initCS cfg) ops) w = true := by
  have hinv := DirectoryInv_runDirOps (initCS cfg) ops (DirectoryInv_initCS cfg)
  simpa [ais_env_servlet_name_initialized] using hinv.2.2 k w h

/-- C3 witness: after initializing `envA` and registering `k1` on it, the
lookup of `k1` yields `envA` and `envA` is indeed initialized. -/
theorem c3_mapped_keys_have_initialized_owner_witness :
    lookupKV "k1"
      (runDirOps (initCS [])
        [DirOp.markInitialized "envA",
         DirOp.registerKey "k1" "envA"]).key_to_env_servlet_name =
      some "envA" ∧
    ais_env_servlet_name_initialized
      (runDirOps (initCS [])
        [DirOp.markInitialized "envA",
         DirOp.registerKey "k1" "envA"]) "envA" = true :=
  ⟨by decide,
    c3_mapped_keys_have_initialized_owner []
      [DirOp.markInitialized "envA", DirOp.registerKey "k1" "envA"]
      "k1" "envA" (by decide)⟩

/-- C4: retiring an initialized worker `w` removes `w` from the initialized
set, removes exactly the keys previously mapped to `w` and no others,
returns exactly those keys (each subsequently absent from the directory,
mappings to other workers unchanged); retiring a non-initialized worker
raises. -/
theorem c4_retire_worker (s : CSState) (w : String)
    (hI : s.initialized_env_servlet_names.Nodup)
    (hK : NodupKV s.key_to_env_servlet_name) :
    (w ∈ s.initialized_env_servlet_names →
      ∃ deleted s',
        aclear_all_references_to_env_servlet_name s w =
          Except.ok (deleted, s') ∧
        w ∉ s'.initialized_env_servlet_names ∧
        (∀ k, k ∈ deleted ↔
          lookupKV k s.key_to_env_servlet_name = some w) ∧
        (∀ k, k ∈ deleted →
          lookupKV k s'.key_to_env_servlet_name = none) ∧
        (∀ k, lookupKV k s.key_to_env_servlet_name ≠ some w →
          lookupKV k s'.key_to_env_servlet_name =
            lookupKV k s.key_to_env_servlet_name) ∧
        (∀ x, x ≠ w →
          (x ∈ s'.initialized_env_servlet_names ↔
           x ∈ s.initialized_env_servlet_names))) ∧
    (w ∉ s.initialized_env_servlet_names →
      aclear_all_references_to_env_servlet_name s w =
        Except.error "KeyError: env servlet name not initialized") := by
  constructor
  · intro hw
    have heq : aclear_all_references_to_env_servlet_name s w =
        Except.ok
          ((s.key_to_env_servlet_name.filter
            (fun p => p.2 = w)).map Prod.fst,
          { s with
            initialized_env_servlet_names :=
              s.initialized_env_servlet_names.erase w
            key_to_env_servlet_name :=
              ((s.key_to_env_servlet_name.filter
                (fun p => p.2 = w)).map Prod.fst).foldl
                (fun m k => eraseKV k m) s.key_to_env_servlet_name }) := by
      simp [aclear_all_references_to_env_servlet_name, hw]
    refine ⟨_, _, heq, ?_, ?_, ?_, ?_, ?_⟩
    · intro hmem
      exact ((hI.mem_erase_iff).mp hmem).1 rfl
    · intro k
      exact mem_deleted_keys_iff w k hK
    · intro k hk
      simp only
      rw [lookupKV_foldl_eraseKV _ k hK, if_pos hk]
    · intro k hk
      have hk' : k ∉ (s.key_to_env_servlet_name.filter
          (fun p => p.2 = w)).map Prod.fst := by
        intro hmem
        exact hk ((mem_deleted_keys_iff w k hK).mp hmem)
      simp only
      rw [lookupKV_foldl_eraseKV _ k hK, if_neg hk']
    · intro x hx
      simp only
      rw [hI.mem_erase_iff]
      exact ⟨fun h => h.2, fun h => ⟨hx, h⟩⟩
  · intro hw
    simp only [aclear_all_references_to_env_servlet_name, hw, if_false]

/-- The concrete scenario of §8: `envA` and `envB` initialized, `k1`
registered on `envA`. -/
def stateC4 : CSState :=
  { cluster_config := []
    initialized_env_servlet_names := ["envA", "envB"]
    key_to_env_servlet_name := [("k1", "envA")]
    last_activity := none
    sky_last_active := none }

/-- The state after retiring `envA` from `stateC4`. -/
def stateC4' : CSState :=
  { cluster_config := []
    initialized_env_servlet_names := ["envB"]
    key_to_env_servlet_name := []
    last_activity := none
    sky_last_active := none }

/-- C4 witness: retiring `envA` returns `["k1"]` and leaves `envB` alone;
retiring the now-gone `envA` again raises. -/
theorem c4_retire_worker_witness :
    aclear_all_references_to_env_servlet_name stateC4 "envA" =
      Except.ok (["k1"], stateC4') ∧
    "envA" ∉ stateC4'.initialized_env_servlet_names ∧
    lookupKV "k1" stateC4'.key_to_env_servlet_name = none ∧
    aclear_all_references_to_env_servlet_name stateC4' "envA" =
      Except.error "KeyError: env servlet name not initialized" :=
  ⟨by rfl, by decide, by rfl,
    (c4_retire_worker stateC4' "envA" (by decide) (by decide)).2 (by decide)⟩

theorem cluster_status_helper_name (poll : String → PollOutcome) (a : String) :
    (cluster_status_helper poll a).env_servlet_name = a := by
  cases hp : poll a <;> simp [cluster_status_helper, hp]

theorem astatus_env_resource_mapping (s : CSState)
    (poll : String → PollOutcome) (sys : SysMetrics) :
    (astatus s poll sys).1.env_resource_mapping =
      s.initialized_env_servlet_names.map (fun n =>
        (n, match poll n with
            | PollOutcome.ok objs _ => objs
            | PollOutcome.objStoreError _ => [])) := by
  simp only [astatus, List.map_map]
  refine List.map_congr_left ?_
  intro a _
  cases hp : poll a <;> simp [cluster_status_helper, hp]

theorem astatus_env_servlet_processes (s : CSState)
    (poll : String → PollOutcome) (sys : SysMetrics) :
    (astatus s poll sys).1.env_servlet_processes =
      s.initialized_env_servlet_names.map (fun n =>
        (n, match poll n with
            | PollOutcome.ok _ util => util
            | PollOutcome.objStoreError _ => [])) := by
  simp only [astatus, List.map_map]
  refine List.map_congr_left ?_
  intro a _
  cases hp : poll a <;> simp [cluster_status_helper, hp]

theorem lookupKV_map_pair {V : Type} (f : String → V) (l : List String)
    (w : String) (hw : w ∈ l) :
    lookupKV w (l.map (fun n => (n, f n))) = some (f w) := by
  induction l with
  | nil => simp at hw
  | cons a rest ih =>
      by_cases h : a = w
      · subst h
        simp [lookupKV]
      · rcases List.mem_cons.mp hw with rfl | hmem
        · exact absurd rfl h
        · simpa [lookupKV, h] using ih hmem

/-- C5: the cluster config embedded in a status snapshot has the `creds`
entry stripped, for every cluster configuration (of dict shape), every
assignment of per-worker poll outcomes and every node-metric sample. -/
theorem c5_snapshot_strips_creds (s : CSState)
    (poll : String → PollOutcome) (sys : SysMetrics)
    (h : NodupKV s.cluster_config) :
    lookupKV "creds" ((astatus s poll sys).1.cluster_config) = none := by
  show lookupKV "creds" (eraseKV "creds" s.cluster_config) = none
  rw [lookupKV_eraseKV _ _ h, if_pos rfl]

/-- A config that does carry credentials. -/
def stateC5 : CSState :=
  initCS [("name", Value.vstr "c"), ("creds", Value.vstr "secret-token")]

/-- Node metrics used by the concrete snapshot witnesses. -/
def sysMetrics0 : SysMetrics :=
  { cpu := Value.vnone, memory := [], disk := [], pid := 1, version := "0.0.1" }

/-- C5 witness: a config holding a `creds` entry loses it in the snapshot. -/
theorem c5_snapshot_strips_creds_witness :
    lookupKV "creds"
      ((astatus stateC5 (fun _ => PollOutcome.objStoreError "down")
        sysMetrics0).1.cluster_config) = none :=
  c5_snapshot_strips_creds stateC5 (fun _ => PollOutcome.objStoreError "down")
    sysMetrics0 (by decide)

/-- C6: the per-worker object lists and utilization maps of a snapshot are
keyed by exactly the initialized-worker set at poll start; a worker whose
poll fails with the object-store error contributes an empty object list and
an empty utilization map instead of being omitted (so no single failure
aborts the aggregate), and a successfully polled worker contributes its
reported pair. -/
theorem c6_snapshot_tolerates_partial_failure (s : CSState)
    (poll : String → PollOutcome) (sys : SysMetrics) :
    ((astatus s poll sys).1.env_resource_mapping.map Prod.fst =
      s.initialized_env_servlet_names) ∧
    ((astatus s poll sys).1.env_servlet_processes.map Prod.fst =
      s.initialized_env_servlet_names) ∧
    (∀ w, w ∈ s.initialized_env_servlet_names →
      (∀ msg, poll w = PollOutcome.objStoreError msg →
        lookupKV w (astatus s poll sys).1.env_resource_mapping = some [] ∧
        lookupKV w (astatus s poll sys).1.env_servlet_processes = some []) ∧
      (∀ objs util, poll w = PollOutcome.ok objs util →
        lookupKV w (astatus s poll sys).1.env_resource_mapping = some objs ∧
        lookupKV w (astatus s poll sys).1.env_servlet_processes = some util)) := by
  refine ⟨?_, ?_, ?_⟩
  · rw [astatus_env_resource_mapping]
    induction s.initialized_env_servlet_names with
    | nil => rfl
    | cons a rest ih => simp only [List.map_cons, ih]
  · rw [astatus_env_servlet_processes]
    induction s.initialized_env_servlet_names with
    | nil => rfl
    | cons a rest ih => simp only [List.map_cons, ih]
  · intro w hw
    constructor
    · intro msg hp
      rw [astatus_env_resource_mapping, astatus_env_servlet_processes]
      rw [lookupKV_map_pair _ _ w hw, lookupKV_map_pair _ _ w hw, hp]
      exact ⟨rfl, rfl⟩
    · intro objs util hp
      rw [astatus_env_resource_mapping, astatus_env_servlet_processes]
      rw [lookupKV_map_pair _ _ w hw, lookupKV_map_pair _ _ w hw, hp]
      exact ⟨rfl, rfl⟩

/-- The concrete snapshot scenario of §8: `envA` unreachable, `envB`
reporting one object and a cpu figure. -/
def pollC6 : String → PollOutcome := fun n =>
  if n = "envB" then
    PollOutcome.ok [Value.vstr "obj1"] [("cpu", Value.vstr "0.1")]
  else
    PollOutcome.objStoreError "worker unreachable"

/-- The state for the concrete snapshot scenario, with both workers
initialized. -/
def stateC6 : CSState :=
  { cluster_config := []
    initialized_env_servlet_names := ["envA", "envB"]
    key_to_env_servlet_name := []
    last_activity := none
    sky_last_active := none }

/-- C6 witness: `envA` fails its poll yet appears with empty list and empty
map; `envB` appears with its report; the key sets are exactly
`["envA", "envB"]`. -/
theorem c6_snapshot_tolerates_partial_failure_witness :
    ((astatus stateC6 pollC6 sysMetrics0).1.env_resource_mapping.map
      Prod.fst = ["envA", "envB"]) ∧
    lookupKV "envA"
      (astatus stateC6 pollC6 sysMetrics0).1.env_resource_mapping =
      some [] ∧
    lookupKV "envA"
      (astatus stateC6 pollC6 sysMetrics0).1.env_servlet_processes =
      some [] ∧
    lookupKV "envB"
      (astatus stateC6 pollC6 sysMetrics0).1.env_resource_mapping =
      some [Value.vstr "obj1"] ∧
    lookupKV "envB"
      (astatus stateC6 pollC6 sysMetrics0).1.env_servlet_processes =
      some [("cpu", Value.vstr "0.1")] := by
  have h := c6_snapshot_tolerates_partial_failure stateC6 pollC6 sysMetrics0
  have hA := (h.2.2 "envA" (by decide)).1 "worker unreachable" (by rfl)
  have hB := (h.2.2 "envB" (by decide)).2 [Value.vstr "obj1"]
    [("cpu", Value.vstr "0.1")] (by rfl)
  exact ⟨h.1, hA.1, hA.2, hB.1, hB.2⟩

/-- C10: computing a snapshot leaves the stored cluster configuration (and
the whole servlet state) unchanged — the `creds` stripping happens on a deep
copy, so `aget_cluster_config` afterwards returns the same mapping, every
key included. -/
theorem c10_snapshot_leaves_state_unchanged (s : CSState)
    (poll : String → PollOutcome) (sys : SysMetrics) :
    (astatus s poll sys).2 = s ∧
    aget_cluster_config (astatus s poll sys).2 = aget_cluster_config s ∧
    (∀ k, lookupKV k ((astatus s poll sys).2.cluster_config) =
      lookupKV k s.cluster_config) :=
  ⟨rfl, rfl, fun _ => rfl⟩

/-- C7: with a numeric, non-sentinel reporting interval configured, any
exception raised during the reporting cycle's body is caught: the cycle sets
`den_status_ping_interval` to the larger fixed backoff
`INCREASED_STATUS_CHECK_INTERVAL`, sleeps the backoff and then the
originally read interval, and proceeds to the next cycle — it neither stops
nor crashes. -/
theorem c7_reporting_failure_escalates_and_continues (s : CSState)
    (now n : Int)
    (hn : lookupKV "den_status_ping_interval" s.cluster_config =
      some (Value.vint n))
    (hrun : n ≠ -1) :
    asend_status_cycle s CycleOutcome.bodyRaises now =
      StepResult.next
        { s with
            cluster_config := setKV "den_status_ping_interval"
              (Value.vint INCREASED_STATUS_CHECK_INTERVAL) s.cluster_config }
        [INCREASED_STATUS_CHECK_INTERVAL, n] ∧
    lookupKV "den_status_ping_interval"
      (setKV "den_status_ping_interval"
        (Value.vint INCREASED_STATUS_CHECK_INTERVAL) s.cluster_config) =
      some (Value.vint INCREASED_STATUS_CHECK_INTERVAL) ∧
    DEFAULT_STATUS_CHECK_INTERVAL < INCREASED_STATUS_CHECK_INTERVAL := by
  refine ⟨?_, ?_, by decide⟩
  · have hne : Value.vint n ≠ Value.vint (-1) := by
      intro hcontra
      injection hcontra with h
      exact hrun h
    unfold asend_status_cycle
    rw [hn]
    simp only [Option.getD_some]
    rw [if_neg hne]
    simp [aset_cluster_config_value]
  · rw [lookupKV_setKV, if_pos rfl]

/-- C7 witness: a cycle with interval 60 whose body raises escalates the
interval to 240 and schedules the two sleeps. -/
theorem c7_reporting_failure_escalates_and_continues_witness :
    asend_status_cycle (initCS [("den_status_ping_interval", Value.vint 60)])
      CycleOutcome.bodyRaises 0 =
      StepResult.next (initCS [("den_status_ping_interval", Value.vint 240)])
        [240, 60] := by
  have h := (c7_reporting_failure_escalates_and_continues
    (initCS [("den_status_ping_interval", Value.vint 60)]) 0 60
    (by rfl) (by decide)).1
  rw [h]
  rfl

/-- C8 counterexample: setting `autostop_mins` to 0 — not a positive
duration — still records last-activity and pushes it to the autoscaler
store, because the code's guard is `value > -1`, not `value > 0`. -/
theorem c8_counterexample :
    ¬((0 : Int) > 0) ∧
    aset_cluster_config_value (initCS []) "autostop_mins" (Value.vint 0) 100 =
      Except.ok
        { cluster_config := [("autostop_mins", Value.vint 0)]
          initialized_env_servlet_names := []
          key_to_env_servlet_name := []
          last_activity := some 100
          sky_last_active := some 100 } :=
  ⟨by decide, by rfl⟩

/-- C8 amended: `aset_cluster_config_value(key, value)` on an integer value
always sets the config entry, and records the current time as last-activity
and pushes it into the autoscaler store if and only if `key` is
`autostop_mins` and `value > -1` (i.e. the value is not negative), rather
than only for strictly positive values. -/
theorem c8_set_value_autostop_push (s : CSState) (key : String)
    (value now : Int) :
    ∀ s', aset_cluster_config_value s key (Value.vint value) now =
        Except.ok s' →
      lookupKV key s'.cluster_config = some (Value.vint value) ∧
      (key = "autostop_mins" ∧ value > -1 →
        s'.last_activity = some now ∧ s'.sky_last_active = some now) ∧
      (¬(key = "autostop_mins" ∧ value > -1) →
        s'.last_activity = s.last_activity ∧
        s'.sky_last_active = s.sky_last_active) := by
  intro s' heq
  simp only [aset_cluster_config_value] at heq
  by_cases hk : key = "autostop_mins"
  · by_cases hv : value > -1
    · simp only [hk, if_true, hv, if_pos, Except.ok.injEq] at heq
      subst heq
      refine ⟨?_, fun _ => ⟨rfl, rfl⟩, fun hcontra => absurd ⟨hk, hv⟩ hcontra⟩
      rw [hk, lookupKV_setKV, if_pos rfl]
    · simp only [hk, if_true, hv, if_false, Except.ok.injEq] at heq
      subst heq
      refine ⟨?_, fun hc => absurd hc.2 hv, fun _ => ⟨rfl, rfl⟩⟩
      rw [hk, lookupKV_setKV, if_pos rfl]
  · simp only [hk, if_false, Except.ok.injEq] at heq
    subst heq
    refine ⟨?_, fun hc => absurd hc.1 hk, fun _ => ⟨rfl, rfl⟩⟩
    rw [lookupKV_setKV, if_pos rfl]

/-- The state produced by setting `autostop_mins` to 5 at time 7 from a
fresh servlet. -/
def stateC8 : CSState :=
  { cluster_config := [("autostop_mins", Value.vint 5)]
    initialized_env_servlet_names := []
    key_to_env_servlet_name := []
    last_activity := some 7
    sky_last_active := some 7 }

/-- C8 amended witness: setting `autostop_mins` to the positive value 5
records the time 7 as last-activity and pushes it to the autoscaler store. -/
theorem c8_set_value_autostop_push_witness :
    lookupKV "autostop_mins" stateC8.cluster_config =
      some (Value.vint 5) ∧
    stateC8.last_activity = some 7 ∧ stateC8.sky_last_active = some 7 := by
  have h := c8_set_value_autostop_push (initCS []) "autostop_mins" 5 7
    stateC8 (by rfl)
  exact ⟨h.1, (h.2.1 ⟨rfl, by decide⟩).1, (h.2.1 ⟨rfl, by decide⟩).2⟩

/-- C9 counterexample: popping an unmapped key with no default supplied
raises `KeyError` — it does not return absent. -/
theorem c9_counterexample :
    lookupKV "k1" (initCS []).key_to_env_servlet_name = none ∧
    apop_env_servlet_name_for_key (initCS []) "k1" none =
      Except.error "KeyError" :=
  ⟨rfl, rfl⟩

/-- C9 amended: `apop_env_servlet_name_for_key(key, *args)` removes and
returns the prior owning worker when the key is mapped; when it is not
mapped it returns the supplied default if one was given, and raises
`KeyError` (rather than returning absent) if no default was supplied. -/
theorem c9_unregister_key (s : CSState) (key : String)
    (default : Option (Option String)) :
    (∀ w, lookupKV key s.key_to_env_servlet_name = some w →
      apop_env_servlet_name_for_key s key default =
        Except.ok (some w,
          { s with key_to_env_servlet_name :=
              eraseKV key s.key_to_env_servlet_name })) ∧
    (lookupKV key s.key_to_env_servlet_name = none →
      (∀ d, default = some d →
        apop_env_servlet_name_for_key s key default = Except.ok (d, s)) ∧
      (default = none →
        apop_env_servlet_name_for_key s key default =
          Except.error "KeyError")) := by
  constructor
  · intro w hl
    simp [apop_env_servlet_name_for_key, popKV_eq_lookupKV_eraseKV, hl]
  · intro hl
    constructor
    · intro d hd
      simp [apop_env_servlet_name_for_key, popKV_eq_lookupKV_eraseKV, hl, hd]
    · intro hd
      simp [apop_env_servlet_name_for_key, popKV_eq_lookupKV_eraseKV, hl, hd]

/-- A directory with `k1` owned by `envA`. -/
def stateC9 : CSState :=
  { cluster_config := []
    initialized_env_servlet_names := ["envA"]
    key_to_env_servlet_name := [("k1", "envA")]
    last_activity := none
    sky_last_active := none }

/-- C9 amended witness: popping the mapped `k1` returns `envA` and removes
the mapping; popping it again with default `None` returns that default. -/
theorem c9_unregister_key_witness :
    apop_env_servlet_name_for_key stateC9 "k1" none =
      Except.ok (some "envA",
        { stateC9 with key_to_env_servlet_name := [] }) ∧
    apop_env_servlet_name_for_key
      { stateC9 with key_to_env_servlet_name := [] } "k1" (some none) =
      Except.ok (none, { stateC9 with key_to_env_servlet_name := [] }) :=
  ⟨(c9_unregister_key stateC9 "k1" none).1 "envA" (by rfl),
    ((c9_unregister_key { stateC9 with key_to_env_servlet_name := [] } "k1"
      (some none)).2 (by rfl)).1 none rfl⟩

end ClusterServlet
